import Mathlib

/-!
Shallow embedding of the TrioBlenders (HX-12) SOS alert lifecycle.

The repository contains one canonical citizen SOS controller,
src/app/(citizen)/sos.tsx, and three near-duplicate dashboard variants:
src/app/(tabs)/index.tsx (Android-safe uploader), src/unnamed/part_002
(anonymous pivot demo, insert-after-upload) and src/unnamed/part_003
(optimized demo, update without status change).

External calls (database insert/update, storage upload, push relay,
user-visible alert dialogs, console logging) are modelled as an event
trace; the nondeterministic results of the external collaborators
(location fetch, insert, upload, push) are supplied by an `Env` record,
so a run of a controller is a pure function of the environment.
-/

namespace HX12

/-- The five UI states of the sos.tsx controller (sos.tsx lines 18-23). -/
inductive SOSStatus where
  | idle
  | activating
  | active
  | uploading
  | done
deriving DecidableEq, Repr

/-- Payload of an insert into the sos_alerts table. Fields mirror the
    nullable columns of the schema (part_000 lines 39-47); a field is
    `none` when the inserting object literal omits the key or passes an
    undefined value. -/
structure AlertInsert where
  user_id : Option String := none
  lat : Option Int := none
  lng : Option Int := none
  status : Option String := none
  video_path : Option String := none
deriving DecidableEq, Repr

/-- Payload of an update against the sos_alerts table: a partial record,
    `none` meaning the key is absent from the update object literal. -/
structure AlertPatch where
  user_id : Option String := none
  lat : Option Int := none
  lng : Option Int := none
  status : Option String := none
  video_path : Option String := none
deriving DecidableEq, Repr

/-- A persisted sos_alerts row (part_000 lines 39-47). -/
structure AlertRow where
  user_id : Option String
  lat : Option Int
  lng : Option Int
  status : String
  video_path : Option String
deriving DecidableEq, Repr

/-- Externally visible actions a controller run performs, in order. -/
inductive Event where
  | insert (payload : AlertInsert) (newId : String)
  | update (id : String) (patch : AlertPatch)
  | upload (name : String) (ok : Bool)
  | pushInvoke (alertId : String) (ok : Bool)
  | alertMsg (title : String)
  | log (msg : String)
deriving DecidableEq, Repr

/-- Row produced by an insert, applying the schema defaults
    (status defaults to active, part_000 line 44). -/
def rowOfInsert (p : AlertInsert) : AlertRow :=
  { user_id := p.user_id, lat := p.lat, lng := p.lng,
    status := p.status.getD "active", video_path := p.video_path }

/-- Apply a partial update to a row: only the keys present in the patch
    change. -/
def applyPatch (r : AlertRow) (p : AlertPatch) : AlertRow :=
  { user_id := match p.user_id with | some v => some v | none => r.user_id,
    lat := match p.lat with | some v => some v | none => r.lat,
    lng := match p.lng with | some v => some v | none => r.lng,
    status := match p.status with | some v => v | none => r.status,
    video_path := match p.video_path with | some v => some v | none => r.video_path }

/-- The Alert Store: an association list of rows keyed by id. -/
abbrev Store := List (String × AlertRow)

/-- Effect of one event on the Alert Store. Only inserts and updates
    touch the store. -/
def applyEvent (store : Store) (e : Event) : Store :=
  match e with
  | .insert p id => store ++ [(id, rowOfInsert p)]
  | .update id p =>
      store.map (fun kv => if kv.1 = id then (kv.1, applyPatch kv.2 p) else kv)
  | _ => store

/-- Effect of a trace of events on the Alert Store. -/
def runEvents (store : Store) (es : List Event) : Store :=
  es.foldl applyEvent store

/-- Look a row up by id. -/
def lookupRow (store : Store) (id : String) : Option AlertRow :=
  match store.find? (fun kv => kv.1 = id) with
  | some kv => some kv.2
  | none => none

/-- Results of the external collaborators for one run: the location
    provider, the database, the storage bucket, the push relay, the
    camera, and the clock. -/
structure Env where
  location : Option (Int × Int)
  insertOk : Bool
  newId : String
  pushOk : Bool
  cameraReady : Bool
  recordedUri : Option String
  uploadOk : Bool
  now : Nat
  userId : Option String
  activeTicks : Nat
deriving Repr

/-- Client-local session state of sos.tsx (lines 39-44): sosStatus,
    alertId, elapsedSeconds, and the isRecordingRef flag. -/
structure SessState where
  sosStatus : SOSStatus
  alertId : Option String
  elapsedSeconds : Nat
  isRecording : Bool
deriving DecidableEq, Repr

/-- Initial session state of sos.tsx. -/
def initialSess : SessState :=
  { sosStatus := .idle, alertId := none, elapsedSeconds := 0, isRecording := false }

/-- activateSOS of sos.tsx (lines 103-154). Guard: no-op unless idle.
    Then: fetch location, insert the alert row, record the returned id,
    invoke the push relay absorbing its failure, start recording when the
    camera is ready, and enter the active state with the timer reset.
    Any failure of location or insert falls to the catch block, which
    logs, surfaces a message and resets sosStatus to idle. -/
def activateSOS (env : Env) (s : SessState) : SessState × List Event :=
  if s.sosStatus ≠ SOSStatus.idle then (s, [])
  else
    let s1 : SessState := { s with sosStatus := .activating }
    match env.location with
    | none =>
        ({ s1 with sosStatus := .idle },
         [.log "SOS activation error", .alertMsg "SOS Error"])
    | some (latitude, longitude) =>
        if env.insertOk then
          let payload : AlertInsert :=
            { user_id := env.userId, lat := some latitude, lng := some longitude,
              status := some "active", video_path := none }
          let s2 : SessState := { s1 with alertId := some env.newId }
          let pushEvents : List Event :=
            if env.pushOk then [.pushInvoke env.newId true]
            else [.pushInvoke env.newId false, .log "Push notification failed"]
          let s3 : SessState :=
            if env.cameraReady then { s2 with isRecording := true } else s2
          ({ s3 with sosStatus := .active, elapsedSeconds := 0 },
           .insert payload env.newId :: pushEvents)
        else
          ({ s1 with sosStatus := .idle },
           [.log "SOS activation error", .alertMsg "SOS Error"])

/-- The timer interval of sos.tsx (lines 83-88): one increment of
    elapsedSeconds per second while the session is active. -/
def timerTicks (n : Nat) (s : SessState) : SessState :=
  { s with elapsedSeconds := s.elapsedSeconds + n }

/-- deactivateSOS of sos.tsx (lines 156-176). Guard: no-op unless
    active. With a running recording it stops the camera (the upload is
    handled by the recordAsync continuation). Without one it updates the
    row to resolved and moves to done. -/
def deactivateSOS (s : SessState) : SessState × List Event :=
  if s.sosStatus ≠ SOSStatus.active then (s, [])
  else
    let s1 : SessState := { s with sosStatus := .uploading }
    if s.isRecording then
      ({ s1 with isRecording := false }, [])
    else
      let events : List Event :=
        match s.alertId with
        | some id => [.update id { status := some "resolved" }]
        | none => []
      ({ s1 with sosStatus := .done }, events)

/-- The setTimeout callback of deactivateSOS (line 174): done to idle. -/
def sosDoneTimeout (s : SessState) : SessState :=
  { s with sosStatus := .idle }

/-- The char-level split on the dot separator, the JS uri.split used at
    sos.tsx line 180; splitting the empty string yields one empty
    segment, as in JS. -/
def splitDots : List Char → List (List Char)
  | [] => [[]]
  | c :: rest =>
      if c = '.' then [] :: splitDots rest
      else
        match splitDots rest with
        | s :: ss => (c :: s) :: ss
        | [] => [[c]]

/-- The file extension computed at sos.tsx line 180: uri.split on dots,
    last element; the mp4 fallback is only reached for an empty split
    result, which never occurs. -/
def fileExtOf (uri : String) : String :=
  match (splitDots uri.data).getLast? with
  | some e => String.mk e
  | none => "mp4"

/-- The storage object name generated at sos.tsx line 181. -/
def sosFileName (id : String) (now : Nat) (uri : String) : String :=
  "sos_" ++ id ++ "_" ++ toString now ++ "." ++ fileExtOf uri

/-- uploadEvidence of sos.tsx (lines 178-214): upload the blob under the
    generated name; on success update the row with the path and resolved
    status and move to done; on failure log, surface a message, and reset
    sosStatus to idle leaving alertId and elapsedSeconds untouched. -/
def uploadEvidence (env : Env) (uri : String) (id : String) (s : SessState)
    : SessState × List Event :=
  let fileName := sosFileName id env.now uri
  if env.uploadOk then
    ({ s with sosStatus := .done },
     [.upload fileName true,
      .update id { video_path := some fileName, status := some "resolved" }])
  else
    ({ s with sosStatus := .idle },
     [.upload fileName false, .log "Upload error", .alertMsg "Upload Failed"])

/-- The setTimeout callback of uploadEvidence (lines 204-208): done to
    idle, clearing alertId and elapsedSeconds. -/
def uploadSuccessTimeout (s : SessState) : SessState :=
  { s with sosStatus := .idle, alertId := none, elapsedSeconds := 0 }

/-- One complete sos.tsx user flow from the initial state: activate,
    timer ticks while active, user presses stop, and the recordAsync
    continuation uploads when a recording was running and yielded a
    file; the scheduled timeouts then fire. -/
def sosRun (env : Env) : SessState × List Event :=
  let a := activateSOS env initialSess
  if a.1.sosStatus = SOSStatus.active then
    let s1 := timerTicks env.activeTicks a.1
    let d := deactivateSOS s1
    if s1.isRecording then
      match env.recordedUri with
      | some uri =>
          let u := uploadEvidence env uri env.newId d.1
          let final :=
            if u.1.sosStatus = SOSStatus.done then uploadSuccessTimeout u.1 else u.1
          (final, a.2 ++ d.2 ++ u.2)
      | none => (d.1, a.2 ++ d.2)
    else
      (sosDoneTimeout d.1, a.2 ++ d.2)
  else
    (a.1, a.2)

/-- Client-local state of the index.tsx and part_003 dashboard variants:
    isSOSActive, activeAlertId, statusText. -/
structure DashState where
  isSOSActive : Bool
  activeAlertId : Option String
  statusText : String
deriving DecidableEq, Repr

/-- Initial state of the dashboard variants (index.tsx lines 29-31). -/
def initialDash : DashState :=
  { isSOSActive := false, activeAlertId := none, statusText := "System Ready" }

/-- startSOS of index.tsx (lines 80-124): guard on isSOSActive, location
    fetch, anonymous insert with status active, record the returned id;
    the recordAsync continuation is handled in dashRun. part_003 lines
    86-126 are the same flow up to status strings. -/
def startSOS (env : Env) (s : DashState) : DashState × List Event :=
  if s.isSOSActive then (s, [])
  else
    let s1 : DashState := { s with isSOSActive := true, statusText := "LOCATING..." }
    match env.location with
    | none =>
        ({ s1 with isSOSActive := false, statusText := "Broadcast Failed" },
         [.log "SOS Error startSOS", .alertMsg "SOS Error"])
    | some (latitude, longitude) =>
        if env.insertOk then
          let payload : AlertInsert :=
            { lat := some latitude, lng := some longitude, status := some "active" }
          ({ s1 with activeAlertId := some env.newId, statusText := "ALERT LIVE - REC" },
           [.insert payload env.newId])
        else
          ({ s1 with isSOSActive := false, statusText := "Broadcast Failed" },
           [.log "SOS Error DB Insert", .alertMsg "SOS Error"])

/-- stopSOS of index.tsx (lines 127-138) and part_003 (lines 129-138):
    guard on isSOSActive; stopping the camera resolves the recordAsync
    continuation. -/
def stopSOS (s : DashState) : DashState :=
  if s.isSOSActive then
    { s with isSOSActive := false, statusText := "FINALIZING EVIDENCE..." }
  else s

/-- The storage object name generated at index.tsx line 163 and
    part_003 line 148. -/
def alertFileName (id : String) (now : Nat) : String :=
  "alert_" ++ id ++ "_" ++ toString now ++ ".mp4"

/-- uploadEvidence of index.tsx (lines 141-189): read the file
    Android-safely, upload under the generated name; on success update
    the row with both the path and resolved status; on failure log and
    surface a message; finally clear activeAlertId in either case. -/
def dashUploadEvidence (env : Env) (id : String) (s : DashState)
    : DashState × List Event :=
  let fileName := alertFileName id env.now
  if env.uploadOk then
    ({ s with statusText := "EVIDENCE SECURED", activeAlertId := none },
     [.upload fileName true,
      .update id { video_path := some fileName, status := some "resolved" }])
  else
    ({ s with statusText := "Sync Failed", activeAlertId := none },
     [.upload fileName false, .log "SOS Error uploadEvidence", .alertMsg "Evidence Error"])

/-- One complete index.tsx user flow from the initial state. -/
def dashRun (env : Env) : DashState × List Event :=
  let a := startSOS env initialDash
  if a.1.isSOSActive then
    let s1 := stopSOS a.1
    if env.cameraReady then
      match env.recordedUri with
      | some _ => match a.1.activeAlertId with
          | some id =>
              let u := dashUploadEvidence env id s1
              (u.1, a.2 ++ u.2)
          | none => (s1, a.2)
      | none => (s1, a.2)
    else (s1, a.2)
  else
    (a.1, a.2)

/-- uploadEvidence of part_003 (lines 140-172): upload under the
    generated name; on success update the row with the video path ONLY
    (the update object literal at part_003 line 160 carries no status
    key); finally clear activeAlertId. -/
def part003UploadEvidence (env : Env) (id : String) (s : DashState)
    : DashState × List Event :=
  let fileName := alertFileName id env.now
  if env.uploadOk then
    ({ s with statusText := "EVIDENCE SECURED", activeAlertId := none },
     [.upload fileName true,
      .update id { video_path := some fileName }])
  else
    ({ s with statusText := "Sync Failed", activeAlertId := none },
     [.upload fileName false, .log "part003 upload error", .alertMsg "Evidence Error"])

/-- One complete part_003 user flow from the initial state. -/
def part003Run (env : Env) : DashState × List Event :=
  let a := startSOS env initialDash
  if a.1.isSOSActive then
    let s1 := stopSOS a.1
    if env.cameraReady then
      match env.recordedUri with
      | some _ => match a.1.activeAlertId with
          | some id =>
              let u := part003UploadEvidence env id s1
              (u.1, a.2 ++ u.2)
          | none => (s1, a.2)
      | none => (s1, a.2)
    else (s1, a.2)
  else
    (a.1, a.2)

/-- Client-local state of the part_002 pivot demo: isRecording and
    statusText (part_002 lines 32-33). -/
structure PivotState where
  isRecording : Bool
  statusText : String
deriving DecidableEq, Repr

/-- Initial state of the part_002 pivot demo. -/
def initialPivot : PivotState :=
  { isRecording := false, statusText := "System Standby" }

/-- The storage object name generated at part_002 line 135. -/
def demoFileName (now : Nat) : String :=
  "demo_sos_" ++ toString now ++ ".mp4"

/-- processAndUpload of part_002 (lines 127-170): upload the recorded
    clip FIRST under a demo name, and only then insert the alert row,
    anonymous, with status active and the video path already set. -/
def processAndUpload (env : Env) (latitude longitude : Int) (s : PivotState)
    : PivotState × List Event :=
  let fileName := demoFileName env.now
  if env.uploadOk then
    if env.insertOk then
      let payload : AlertInsert :=
        { lat := some latitude, lng := some longitude,
          video_path := some fileName, status := some "active" }
      ({ s with statusText := "ALERT BROADCASTED" },
       [.upload fileName true, .insert payload env.newId])
    else
      ({ s with statusText := "Upload Failed" },
       [.upload fileName true, .log "part002 insert error", .alertMsg "Network Sync Error"])
  else
    ({ s with statusText := "Upload Failed" },
     [.upload fileName false, .log "part002 upload error", .alertMsg "Network Sync Error"])

/-- One complete part_002 user flow from the initial state: handleSOS
    (lines 88-118) guards on isRecording, fetches the location, starts
    recording; the five second demo timer stops the camera and the
    recordAsync continuation runs processAndUpload. -/
def pivotRun (env : Env) : PivotState × List Event :=
  if initialPivot.isRecording then (initialPivot, [])
  else
    let s1 : PivotState :=
      { initialPivot with isRecording := true, statusText := "RECORDING EVIDENCE" }
    match env.location with
    | none =>
        ({ s1 with isRecording := false, statusText := "System Error" },
         [.log "part002 hardware error", .alertMsg "Hardware Error"])
    | some (latitude, longitude) =>
        if env.cameraReady then
          let s2 : PivotState := { s1 with isRecording := false }
          match env.recordedUri with
          | some _ =>
              let u := processAndUpload env latitude longitude
                { s2 with statusText := "SECURE UPLOAD IN PROGRESS" }
              (u.1, u.2)
          | none => (s2, [])
        else (s1, [])

/-! Base64, as used by the Android-safe uploader of index.tsx
    (lines 152-161): the file is read from disk as a base64 string
    (FileSystem.readAsStringAsync with Base64 encoding) and decoded back
    to a binary string by the base-64 package; the Uint8Array is then
    filled with the char code of every position of that binary string.
    Strings are modelled as lists of char codes. -/

/-- Sextet value to base64 alphabet char code
    (A-Z, a-z, 0-9, plus, slash). -/
def sextetToCode (v : Nat) : Nat :=
  if v < 26 then 65 + v
  else if v < 52 then 97 + (v - 26)
  else if v < 62 then 48 + (v - 52)
  else if v = 62 then 43
  else 47

/-- Base64 alphabet char code back to its sextet value. -/
def codeToSextet (c : Nat) : Nat :=
  if 65 ≤ c ∧ c ≤ 90 then c - 65
  else if 97 ≤ c ∧ c ≤ 122 then 26 + (c - 97)
  else if 48 ≤ c ∧ c ≤ 57 then 52 + (c - 48)
  else if c = 43 then 62
  else if c = 47 then 63
  else 0

/-- Base64 encoding of a byte sequence to char codes; 61 is the code of
    the padding char. -/
def b64encode : List Nat → List Nat
  | [] => []
  | [a] => [sextetToCode (a / 4), sextetToCode (a % 4 * 16), 61, 61]
  | [a, b] =>
      [sextetToCode (a / 4), sextetToCode (a % 4 * 16 + b / 16),
       sextetToCode (b % 16 * 4), 61]
  | a :: b :: c :: rest =>
      sextetToCode (a / 4) :: sextetToCode (a % 4 * 16 + b / 16) ::
      sextetToCode (b % 16 * 4 + c / 64) :: sextetToCode (c % 64) :: b64encode rest

/-- Base64 decoding of char codes to the char codes of the binary
    string, the base-64 package decode consumed at index.tsx line 157;
    padding ends a quantum early. -/
def b64decode : List Nat → List Nat
  | w :: x :: y :: z :: rest =>
      if y = 61 then [codeToSextet w * 4 + codeToSextet x / 16]
      else if z = 61 then
        [codeToSextet w * 4 + codeToSextet x / 16,
         codeToSextet x % 16 * 16 + codeToSextet y / 4]
      else
        (codeToSextet w * 4 + codeToSextet x / 16) ::
        (codeToSextet x % 16 * 16 + codeToSextet y / 4) ::
        (codeToSextet y % 4 * 64 + codeToSextet z) :: b64decode rest
  | _ => []

/-- The decode-and-repack step of index.tsx lines 152-161: read the
    recorded bytes as base64, decode to a binary string, and store the
    char code of every position into a Uint8Array slot, which truncates
    to a byte. -/
def androidSafeBytes (fileBytes : List Nat) : List Nat :=
  let base64 := b64encode fileBytes
  let binaryString := b64decode base64
  binaryString.map (fun c => c % 256)

/-! Trace observations used to state the claims. -/

/-- Whether an event is a database insert. -/
def Event.isInsert : Event → Bool
  | .insert _ _ => true
  | _ => false

/-- Whether an event is a database update. -/
def Event.isUpdate : Event → Bool
  | .update _ _ => true
  | _ => false

/-- Whether an event is a storage upload attempt. -/
def Event.isUpload : Event → Bool
  | .upload _ _ => true
  | _ => false

/-- Whether an event is a user-visible message. -/
def Event.isAlertMsg : Event → Bool
  | .alertMsg _ => true
  | _ => false

/-- Whether an event makes evidence exist for an alert: a storage upload
    or an update carrying a video path. -/
def isEvidenceOp : Event → Bool
  | .upload _ _ => true
  | .update _ p => p.video_path.isSome
  | _ => false

/-- The statement of the activation claim on a trace: exactly one
    insert, every insert payload has active status and both coordinates,
    and no evidence operation occurs before the first insert. -/
def c1Holds (tr : List Event) : Bool :=
  (tr.filter Event.isInsert).length = 1 &&
  tr.all (fun e => match e with
    | .insert p _ => p.status == some "active" && p.lat.isSome && p.lng.isSome
    | _ => true) &&
  (tr.takeWhile (fun e => ! e.isInsert)).all (fun e => ! isEvidenceOp e)

/-- No row update occurs in a trace before the storage upload
    (the upload-then-update ordering, never update-then-upload). -/
def updateNeverBeforeUpload (tr : List Event) : Bool :=
  (tr.takeWhile (fun e => ! e.isUpload)).all (fun e => ! e.isUpdate)

/-- The row an id holds after a trace is applied to the empty store. -/
def finalRow (tr : List Event) (id : String) : Option AlertRow :=
  lookupRow (runEvents [] tr) id

/-- The patch of an update event touches neither the coordinates nor
    the reporter reference. -/
def patchFrameOk (p : AlertPatch) : Prop :=
  p.lat = none ∧ p.lng = none ∧ p.user_id = none

/-- Frame condition on one event: updates touch only evidencePath
    and status. -/
def eventFrameOk : Event → Prop
  | .update _ p => patchFrameOk p
  | _ => True

/-- A concrete environment where every collaborator succeeds. -/
def envBase : Env :=
  { location := some (37, -122), insertOk := true, newId := "a1",
    pushOk := true, cameraReady := true,
    recordedUri := some "file:///tmp/clip.mp4", uploadOk := true,
    now := 1000, userId := none, activeTicks := 7 }

/-- Decoding the alphabet char of a sextet recovers the sextet. -/
theorem codeToSextet_sextetToCode :
    ∀ v : Nat, v < 64 → codeToSextet (sextetToCode v) = v := by decide

/-- No sextet encodes to the padding char. -/
theorem sextetToCode_ne_pad :
    ∀ v : Nat, v < 64 → sextetToCode v ≠ 61 := by decide

/-- Base64 decoding inverts base64 encoding on byte sequences. -/
theorem b64decode_b64encode :
    ∀ bs : List Nat, (∀ x ∈ bs, x < 256) → b64decode (b64encode bs) = bs
  | [], _ => rfl
  | [a], h => by
      have ha : a < 256 := h a (by simp)
      have h1 : codeToSextet (sextetToCode (a / 4)) = a / 4 :=
        codeToSextet_sextetToCode _ (by omega)
      have h2 : codeToSextet (sextetToCode (a % 4 * 16)) = a % 4 * 16 :=
        codeToSextet_sextetToCode _ (by omega)
      simp only [b64encode, b64decode, if_true, h1, h2, List.cons.injEq, and_true]
      omega
  | [a, b], h => by
      have ha : a < 256 := h a (by simp)
      have hb : b < 256 := h b (by simp)
      have h1 : codeToSextet (sextetToCode (a / 4)) = a / 4 :=
        codeToSextet_sextetToCode _ (by omega)
      have h2 : codeToSextet (sextetToCode (a % 4 * 16 + b / 16)) = a % 4 * 16 + b / 16 :=
        codeToSextet_sextetToCode _ (by omega)
      have h3 : codeToSextet (sextetToCode (b % 16 * 4)) = b % 16 * 4 :=
        codeToSextet_sextetToCode _ (by omega)
      have hp3 : sextetToCode (b % 16 * 4) ≠ 61 :=
        sextetToCode_ne_pad _ (by omega)
      simp only [b64encode, b64decode, if_neg hp3, if_true, h1, h2, h3,
        List.cons.injEq, and_true]
      omega
  | a :: b :: c :: rest, h => by
      have ha : a < 256 := h a (by simp)
      have hb : b < 256 := h b (by simp)
      have hc : c < 256 := h c (by simp)
      have ih : b64decode (b64encode rest) = rest :=
        b64decode_b64encode rest (fun x hx => h x (by simp [hx]))
      have h1 : codeToSextet (sextetToCode (a / 4)) = a / 4 :=
        codeToSextet_sextetToCode _ (by omega)
      have h2 : codeToSextet (sextetToCode (a % 4 * 16 + b / 16)) = a % 4 * 16 + b / 16 :=
        codeToSextet_sextetToCode _ (by omega)
      have h3 : codeToSextet (sextetToCode (b % 16 * 4 + c / 64)) = b % 16 * 4 + c / 64 :=
        codeToSextet_sextetToCode _ (by omega)
      have h4 : codeToSextet (sextetToCode (c % 64)) = c % 64 :=
        codeToSextet_sextetToCode _ (by omega)
      have hp3 : sextetToCode (b % 16 * 4 + c / 64) ≠ 61 :=
        sextetToCode_ne_pad _ (by omega)
      have hp4 : sextetToCode (c % 64) ≠ 61 :=
        sextetToCode_ne_pad _ (by omega)
      simp only [b64encode, b64decode, if_neg hp3, if_neg hp4, h1, h2, h3, h4,
        ih, List.cons.injEq, and_true]
      omega

/-- Truncating to a byte is the identity on a list of bytes. -/
theorem map_mod256_id :
    ∀ l : List Nat, (∀ x ∈ l, x < 256) → l.map (fun c => c % 256) = l
  | [], _ => rfl
  | a :: rest, h => by
      have ha : a < 256 := h a (by simp)
      have ih := map_mod256_id rest (fun x hx => h x (by simp [hx]))
      simp only [List.map_cons, ih, List.cons.injEq, and_true]
      omega

/-- C10: the Android-safe decode-and-repack step of the index.tsx
    evidence uploader is a correct round trip: reading a byte sequence
    as base64 and rebuilding a Uint8Array by char codes over the decoded
    binary string yields exactly the original bytes, so the bytes
    uploaded to the Object Store equal the bytes of the recorded file. -/
theorem c10_android_base64_roundtrip (bs : List Nat) (h : ∀ x ∈ bs, x < 256) :
    androidSafeBytes bs = bs := by
  have hd := b64decode_b64encode bs h
  simp only [androidSafeBytes, hd]
  exact map_mod256_id bs h

/-- C10 witness: the round trip evaluated on a concrete byte sequence. -/
theorem c10_android_base64_roundtrip_witness :
    androidSafeBytes [0, 255, 104, 105, 33] = [0, 255, 104, 105, 33] :=
  c10_android_base64_roundtrip [0, 255, 104, 105, 33] (by decide)

/-- C2: an activation attempt while the controller is not idle performs
    no external call and leaves the whole session state unchanged, both
    in the sos.tsx controller and in the index.tsx variant, so rapid
    re-taps cannot create duplicate alert rows. -/
theorem c2_activation_idempotent_guard (env : Env) (s : SessState) (d : DashState)
    (hs : s.sosStatus ≠ SOSStatus.idle) (hd : d.isSOSActive = true) :
    activateSOS env s = (s, []) ∧ startSOS env d = (d, []) := by
  constructor
  · simp [activateSOS, hs]
  · simp [startSOS, hd]

/-- C2 witness: the guard evaluated in the active state. -/
theorem c2_activation_idempotent_guard_witness :
    activateSOS envBase { initialSess with sosStatus := SOSStatus.active } =
      ({ initialSess with sosStatus := SOSStatus.active }, []) ∧
    startSOS envBase { initialDash with isSOSActive := true } =
      ({ initialDash with isSOSActive := true }, []) :=
  c2_activation_idempotent_guard envBase
    { initialSess with sosStatus := SOSStatus.active }
    { initialDash with isSOSActive := true } (by decide) rfl

/-- C4: deactivating in the active state with no running capture updates
    the row to resolved leaving the video path untouched, proceeds done
    then idle, performs no upload; deactivating in any other state is a
    no-op; and over a full no-camera run the final row is resolved with
    a null evidence path. -/
theorem c4_stop_without_capture (env : Env) (s : SessState) (id : String)
    (latitude longitude : Int)
    (hact : s.sosStatus = SOSStatus.active) (hrec : s.isRecording = false)
    (hid : s.alertId = some id) :
    deactivateSOS s =
      ({ s with sosStatus := SOSStatus.done },
       [Event.update id { status := some "resolved" }]) ∧
    sosDoneTimeout (deactivateSOS s).1 = { s with sosStatus := SOSStatus.idle } ∧
    (∀ e ∈ (deactivateSOS s).2, e.isUpload = false) ∧
    (∀ row : AlertRow,
      (applyPatch row { status := some "resolved" }).video_path = row.video_path) ∧
    (∀ s2 : SessState, s2.sosStatus ≠ SOSStatus.active → deactivateSOS s2 = (s2, [])) ∧
    (env.location = some (latitude, longitude) → env.insertOk = true →
      env.cameraReady = false →
      (∀ n ok, Event.upload n ok ∉ (sosRun env).2) ∧
      finalRow (sosRun env).2 env.newId =
        some { user_id := env.userId, lat := some latitude, lng := some longitude,
               status := "resolved", video_path := none }) := by
  refine ⟨?_, ?_, ?_, ?_, ?_, ?_⟩
  · simp [deactivateSOS, hact, hrec, hid]
  · simp [deactivateSOS, hact, hrec, hid, sosDoneTimeout]
  · simp [deactivateSOS, hact, hrec, hid, Event.isUpload]
  · intro row; simp [applyPatch]
  · intro s2 h2; simp [deactivateSOS, h2]
  · intro h1 h2 h3
    cases hp : env.pushOk <;>
      simp [sosRun, activateSOS, deactivateSOS, timerTicks, sosDoneTimeout,
        initialSess, finalRow, runEvents, applyEvent, lookupRow, rowOfInsert,
        applyPatch, h1, h2, h3, hp]

/-- C4 witness: a full run with the camera unavailable. -/
theorem c4_stop_without_capture_witness :
    (deactivateSOS { sosStatus := SOSStatus.active, alertId := some "a1",
                     elapsedSeconds := 7, isRecording := false } =
      ({ sosStatus := SOSStatus.done, alertId := some "a1",
         elapsedSeconds := 7, isRecording := false },
       [Event.update "a1" { status := some "resolved" }])) ∧
    finalRow (sosRun { envBase with cameraReady := false }).2 "a1" =
      some { user_id := none, lat := some 37, lng := some (-122),
             status := "resolved", video_path := none } := by
  have h := c4_stop_without_capture { envBase with cameraReady := false }
    { sosStatus := SOSStatus.active, alertId := some "a1",
      elapsedSeconds := 7, isRecording := false } "a1" 37 (-122)
    rfl rfl rfl
  exact ⟨h.1, (h.2.2.2.2.2 rfl rfl rfl).2⟩

/-- C5: a failed evidence upload applies no insert or update at all, so
    the Alert row keeps active status and a null video path, a message
    is surfaced, and the controller returns to idle; over a full run the
    row is exactly as the activation inserted it. -/
theorem c5_upload_failure_leaves_row (env : Env) (uri id : String) (s : SessState)
    (store : Store) (latitude longitude : Int)
    (hfail : env.uploadOk = false) :
    runEvents store (uploadEvidence env uri id s).2 = store ∧
    (∀ i p, Event.update i p ∉ (uploadEvidence env uri id s).2) ∧
    Event.alertMsg "Upload Failed" ∈ (uploadEvidence env uri id s).2 ∧
    (uploadEvidence env uri id s).1.sosStatus = SOSStatus.idle ∧
    (env.location = some (latitude, longitude) → env.insertOk = true →
      env.cameraReady = true → env.recordedUri = some uri →
      (sosRun env).1.sosStatus = SOSStatus.idle ∧
      finalRow (sosRun env).2 env.newId =
        some { user_id := env.userId, lat := some latitude, lng := some longitude,
               status := "active", video_path := none }) := by
  refine ⟨?_, ?_, ?_, ?_, ?_⟩
  · simp [uploadEvidence, hfail, runEvents, applyEvent]
  · intro i p; simp [uploadEvidence, hfail]
  · simp [uploadEvidence, hfail]
  · simp [uploadEvidence, hfail]
  · intro h1 h2 h3 h4
    cases hp : env.pushOk <;>
      simp [sosRun, activateSOS, deactivateSOS, uploadEvidence, timerTicks,
        initialSess, finalRow, runEvents, applyEvent, lookupRow, rowOfInsert,
        h1, h2, h3, h4, hp, hfail]

/-- C5 witness: a full run whose upload fails. -/
theorem c5_upload_failure_leaves_row_witness :
    (∀ i p, Event.update i p ∉
      (uploadEvidence { envBase with uploadOk := false }
        "file:///tmp/clip.mp4" "a1" initialSess).2) ∧
    (sosRun { envBase with uploadOk := false }).1.sosStatus = SOSStatus.idle ∧
    finalRow (sosRun { envBase with uploadOk := false }).2 "a1" =
      some { user_id := none, lat := some 37, lng := some (-122),
             status := "active", video_path := none } := by
  have h := c5_upload_failure_leaves_row { envBase with uploadOk := false }
    "file:///tmp/clip.mp4" "a1" initialSess [] 37 (-122) rfl
  exact ⟨h.2.1, (h.2.2.2.2 rfl rfl rfl rfl).1, (h.2.2.2.2 rfl rfl rfl rfl).2⟩

/-- C6: a failing push call is fully absorbed during activation: the
    resulting session state is identical to the one of a run whose push
    call succeeds, the controller still reaches active, the database
    events are identical, no message is surfaced and no update ever
    touches the freshly inserted row. -/
theorem c6_push_failure_absorbed (env : Env) (s : SessState)
    (latitude longitude : Int)
    (hidle : s.sosStatus = SOSStatus.idle)
    (hloc : env.location = some (latitude, longitude))
    (hins : env.insertOk = true) :
    (activateSOS { env with pushOk := false } s).1 =
      (activateSOS { env with pushOk := true } s).1 ∧
    (activateSOS { env with pushOk := false } s).1.sosStatus = SOSStatus.active ∧
    ((activateSOS { env with pushOk := false } s).2.filter
        (fun e => e.isInsert || e.isUpdate)) =
      ((activateSOS { env with pushOk := true } s).2.filter
        (fun e => e.isInsert || e.isUpdate)) ∧
    (∀ t, Event.alertMsg t ∉ (activateSOS { env with pushOk := false } s).2) ∧
    (∀ i p, Event.update i p ∉ (activateSOS { env with pushOk := false } s).2) := by
  refine ⟨?_, ?_, ?_, ?_, ?_⟩ <;>
    simp [activateSOS, hidle, hloc, hins, Event.isInsert, Event.isUpdate]

/-- C6 witness: activation with a failing push call from the initial
    state. -/
theorem c6_push_failure_absorbed_witness :
    (activateSOS { envBase with pushOk := false } initialSess).1 =
      (activateSOS { envBase with pushOk := true } initialSess).1 ∧
    (activateSOS { envBase with pushOk := false } initialSess).1.sosStatus =
      SOSStatus.active := by
  have h := c6_push_failure_absorbed envBase initialSess 37 (-122) rfl rfl rfl
  exact ⟨h.1, h.2.1⟩

/-- C1 counterexample: in the part_002 pivot variant a fully successful
    run performs the alert insert AFTER the evidence upload, with the
    video path already set, so the insert-before-evidence part of the
    claim fails on this concrete run even though exactly one active row
    with coordinates is inserted. -/
theorem c1_counterexample :
    (pivotRun envBase).1.statusText = "ALERT BROADCASTED" ∧
    c1Holds (pivotRun envBase).2 = false := by decide

/-- C1 amended: in the sos.tsx controller and the index.tsx variant
    every successful activation inserts exactly one row, with active
    status and both captured coordinates, before any evidence operation;
    in the part_002 variant the single active row with the captured
    coordinates is only inserted after the upload, carrying the
    generated video path. -/
theorem c1_one_active_insert (env : Env) (latitude longitude : Int) (uri : String)
    (hloc : env.location = some (latitude, longitude))
    (hins : env.insertOk = true) :
    c1Holds (sosRun env).2 = true ∧
    c1Holds (dashRun env).2 = true ∧
    (sosRun env).2.contains
      (Event.insert { user_id := env.userId, lat := some latitude,
                      lng := some longitude, status := some "active",
                      video_path := none } env.newId) = true ∧
    (dashRun env).2.contains
      (Event.insert { lat := some latitude, lng := some longitude,
                      status := some "active" } env.newId) = true ∧
    (env.cameraReady = true → env.recordedUri = some uri → env.uploadOk = true →
      (pivotRun env).2 =
        [Event.upload (demoFileName env.now) true,
         Event.insert { lat := some latitude, lng := some longitude,
                        video_path := some (demoFileName env.now),
                        status := some "active" } env.newId]) := by
  refine ⟨?_, ?_, ?_, ?_, ?_⟩
  · cases hp : env.pushOk <;> cases hc : env.cameraReady <;>
      rcases hr : env.recordedUri with _ | uri2 <;> cases hu : env.uploadOk <;>
      simp [sosRun, activateSOS, deactivateSOS, uploadEvidence, timerTicks,
        sosDoneTimeout, uploadSuccessTimeout, initialSess, c1Holds,
        Event.isInsert, isEvidenceOp, hloc, hins, hp, hc, hr, hu]
  · cases hc : env.cameraReady <;>
      rcases hr : env.recordedUri with _ | uri2 <;> cases hu : env.uploadOk <;>
      simp [dashRun, startSOS, stopSOS, dashUploadEvidence, initialDash,
        c1Holds, Event.isInsert, isEvidenceOp, hloc, hins, hc, hr, hu]
  · cases hp : env.pushOk <;> cases hc : env.cameraReady <;>
      rcases hr : env.recordedUri with _ | uri2 <;> cases hu : env.uploadOk <;>
      simp [sosRun, activateSOS, deactivateSOS, uploadEvidence, timerTicks,
        sosDoneTimeout, uploadSuccessTimeout, initialSess,
        hloc, hins, hp, hc, hr, hu]
  · cases hc : env.cameraReady <;>
      rcases hr : env.recordedUri with _ | uri2 <;> cases hu : env.uploadOk <;>
      simp [dashRun, startSOS, stopSOS, dashUploadEvidence, initialDash,
        hloc, hins, hc, hr, hu]
  · intro hc hr hu
    simp [pivotRun, processAndUpload, initialPivot, hloc, hins, hc, hr, hu]

/-- C1 witness: a fully successful environment. -/
theorem c1_one_active_insert_witness :
    c1Holds (sosRun envBase).2 = true ∧
    (pivotRun envBase).2 =
      [Event.upload (demoFileName 1000) true,
       Event.insert { lat := some 37, lng := some (-122),
                      video_path := some (demoFileName 1000),
                      status := some "active" } "a1"] := by
  have h := c1_one_active_insert envBase 37 (-122) "file:///tmp/clip.mp4" rfl rfl
  exact ⟨h.1, h.2.2.2.2 rfl rfl rfl⟩

/-- C3 counterexample: in the part_003 variant a stop with a successful
    upload leaves the row with the video path set but with status still
    active, because the update at part_003 line 160 carries no status
    key; so the claim that the final row is resolved fails on this
    concrete run. -/
theorem c3_counterexample :
    (part003Run envBase).2.contains (Event.upload "alert_a1_1000.mp4" true) = true ∧
    finalRow (part003Run envBase).2 "a1" =
      some { user_id := none, lat := some 37, lng := some (-122),
             status := "active", video_path := some "alert_a1_1000.mp4" } ∧
    (finalRow (part003Run envBase).2 "a1").map AlertRow.status ≠ some "resolved" := by
  decide

/-- C3 amended: a stop with a successful upload ends with the row
    carrying the generated video path, and the storage upload always
    precedes the row update (never the reverse); in sos.tsx and
    index.tsx the final status is resolved, while in the part_003
    variant the update sets only the video path and the status remains
    active. -/
theorem c3_upload_then_update (env : Env) (uri : String) (latitude longitude : Int)
    (hloc : env.location = some (latitude, longitude))
    (hins : env.insertOk = true)
    (hcam : env.cameraReady = true)
    (hrec : env.recordedUri = some uri)
    (hup : env.uploadOk = true) :
    finalRow (sosRun env).2 env.newId =
      some { user_id := env.userId, lat := some latitude, lng := some longitude,
             status := "resolved",
             video_path := some (sosFileName env.newId env.now uri) } ∧
    updateNeverBeforeUpload (sosRun env).2 = true ∧
    finalRow (dashRun env).2 env.newId =
      some { user_id := none, lat := some latitude, lng := some longitude,
             status := "resolved",
             video_path := some (alertFileName env.newId env.now) } ∧
    updateNeverBeforeUpload (dashRun env).2 = true ∧
    finalRow (part003Run env).2 env.newId =
      some { user_id := none, lat := some latitude, lng := some longitude,
             status := "active",
             video_path := some (alertFileName env.newId env.now) } ∧
    updateNeverBeforeUpload (part003Run env).2 = true := by
  refine ⟨?_, ?_, ?_, ?_, ?_, ?_⟩ <;>
    cases hp : env.pushOk <;>
      simp [sosRun, dashRun, part003Run, activateSOS, startSOS, stopSOS,
        deactivateSOS, uploadEvidence, dashUploadEvidence,
        part003UploadEvidence, timerTicks, uploadSuccessTimeout, initialSess,
        initialDash, finalRow, runEvents, applyEvent, lookupRow, rowOfInsert,
        applyPatch, updateNeverBeforeUpload, Event.isUpload, Event.isUpdate,
        hloc, hins, hcam, hrec, hup, hp]

/-- C3 witness: a fully successful environment. -/
theorem c3_upload_then_update_witness :
    finalRow (sosRun envBase).2 "a1" =
      some { user_id := none, lat := some 37, lng := some (-122),
             status := "resolved", video_path := some "sos_a1_1000.mp4" } ∧
    updateNeverBeforeUpload (sosRun envBase).2 = true := by
  have h := c3_upload_then_update envBase "file:///tmp/clip.mp4" 37 (-122)
    rfl rfl rfl rfl rfl
  exact ⟨by rw [show ("a1" : String) = envBase.newId from rfl, h.1]; decide, h.2.1⟩

/-- C7 counterexample: the sos.tsx uploader generates the name
    sos_a1_1000.mp4 for alert a1 at time 1000 and writes exactly that
    name into the row, but that name is not of the claimed form
    alert_a1_1000.mp4. -/
theorem c7_counterexample :
    (sosRun envBase).2.contains
      (Event.update "a1" { video_path := some "sos_a1_1000.mp4",
                           status := some "resolved" }) = true ∧
    sosFileName "a1" 1000 "file:///tmp/clip.mp4" = "sos_a1_1000.mp4" ∧
    "sos_a1_1000.mp4" ≠ alertFileName "a1" 1000 := by decide

/-- C7 amended: every successful upload writes exactly the generated
    name into the row; the generated form is alert_id_timestamp.mp4 in
    the index.tsx and part_003 variants, sos_id_timestamp.ext in
    sos.tsx, and demo_sos_timestamp.mp4 (no alert id) in part_002. -/
theorem c7_generated_names (env : Env) (uri : String) (latitude longitude : Int)
    (hloc : env.location = some (latitude, longitude))
    (hins : env.insertOk = true)
    (hcam : env.cameraReady = true)
    (hrec : env.recordedUri = some uri)
    (hup : env.uploadOk = true) :
    (sosRun env).2.contains
      (Event.update env.newId
        { video_path := some (sosFileName env.newId env.now uri),
          status := some "resolved" }) = true ∧
    sosFileName env.newId env.now uri =
      "sos_" ++ env.newId ++ "_" ++ toString env.now ++ "." ++ fileExtOf uri ∧
    (dashRun env).2.contains
      (Event.update env.newId
        { video_path := some (alertFileName env.newId env.now),
          status := some "resolved" }) = true ∧
    (part003Run env).2.contains
      (Event.update env.newId
        { video_path := some (alertFileName env.newId env.now) }) = true ∧
    alertFileName env.newId env.now =
      "alert_" ++ env.newId ++ "_" ++ toString env.now ++ ".mp4" ∧
    (pivotRun env).2.contains
      (Event.insert { lat := some latitude, lng := some longitude,
                      video_path := some (demoFileName env.now),
                      status := some "active" } env.newId) = true := by
  refine ⟨?_, rfl, ?_, ?_, rfl, ?_⟩ <;>
    cases hp : env.pushOk <;>
      simp [sosRun, dashRun, part003Run, pivotRun, activateSOS, startSOS,
        stopSOS, deactivateSOS, uploadEvidence, dashUploadEvidence,
        part003UploadEvidence, processAndUpload, timerTicks,
        uploadSuccessTimeout, initialSess, initialDash, initialPivot,
        hloc, hins, hcam, hrec, hup, hp]

/-- C7 witness: the generated names of a fully successful environment. -/
theorem c7_generated_names_witness :
    (sosRun envBase).2.contains
      (Event.update "a1" { video_path := some (sosFileName "a1" 1000 "file:///tmp/clip.mp4"),
                           status := some "resolved" }) = true ∧
    (dashRun envBase).2.contains
      (Event.update "a1" { video_path := some (alertFileName "a1" 1000),
                           status := some "resolved" }) = true := by
  have h := c7_generated_names envBase "file:///tmp/clip.mp4" 37 (-122)
    rfl rfl rfl rfl rfl
  exact ⟨h.1, h.2.2.1⟩

/-- C9 counterexample: after an upload failure the sos.tsx controller
    returns to idle but neither alertId nor the elapsed seconds are
    cleared, contradicting the claim that every terminal outcome resets
    all Session fields. -/
theorem c9_counterexample :
    (sosRun { envBase with uploadOk := false }).1.sosStatus = SOSStatus.idle ∧
    (sosRun { envBase with uploadOk := false }).1.alertId = some "a1" ∧
    (sosRun { envBase with uploadOk := false }).1.alertId ≠ none ∧
    (sosRun { envBase with uploadOk := false }).1.elapsedSeconds = 7 := by decide

/-- C9 amended: every terminal outcome of a sos.tsx session returns
    sosStatus to idle, but only the successful upload completion clears
    alertId and the elapsed seconds: an activation failure leaves the
    Session equal to the initial state, while the no-capture stop and
    the failed upload keep the alert id and the elapsed seconds. -/
theorem c9_session_reset (env : Env) (latitude longitude : Int) (uri : String) :
    ((env.location = none ∨ env.insertOk = false) → (sosRun env).1 = initialSess) ∧
    (env.location = some (latitude, longitude) → env.insertOk = true →
      env.cameraReady = false →
      (sosRun env).1 =
        { sosStatus := SOSStatus.idle, alertId := some env.newId,
          elapsedSeconds := env.activeTicks, isRecording := false }) ∧
    (env.location = some (latitude, longitude) → env.insertOk = true →
      env.cameraReady = true → env.recordedUri = some uri → env.uploadOk = true →
      (sosRun env).1 = initialSess) ∧
    (env.location = some (latitude, longitude) → env.insertOk = true →
      env.cameraReady = true → env.recordedUri = some uri → env.uploadOk = false →
      (sosRun env).1 =
        { sosStatus := SOSStatus.idle, alertId := some env.newId,
          elapsedSeconds := env.activeTicks, isRecording := false }) := by
  refine ⟨?_, ?_, ?_, ?_⟩
  · intro h
    rcases h with h | h
    · simp [sosRun, activateSOS, initialSess, h]
    · rcases hl : env.location with _ | ⟨la, ln⟩ <;>
        simp [sosRun, activateSOS, initialSess, h, hl]
  · intro h1 h2 h3
    cases hp : env.pushOk <;>
      simp [sosRun, activateSOS, deactivateSOS, timerTicks, sosDoneTimeout,
        initialSess, h1, h2, h3, hp]
  · intro h1 h2 h3 h4 h5
    cases hp : env.pushOk <;>
      simp [sosRun, activateSOS, deactivateSOS, uploadEvidence, timerTicks,
        uploadSuccessTimeout, initialSess, h1, h2, h3, h4, h5, hp]
  · intro h1 h2 h3 h4 h5
    cases hp : env.pushOk <;>
      simp [sosRun, activateSOS, deactivateSOS, uploadEvidence, timerTicks,
        uploadSuccessTimeout, initialSess, h1, h2, h3, h4, h5, hp]

/-- C9 witness: the successful completion clears the Session and the
    failed upload keeps the alert id. -/
theorem c9_session_reset_witness :
    (sosRun envBase).1 = initialSess ∧
    (sosRun { envBase with uploadOk := false }).1 =
      { sosStatus := SOSStatus.idle, alertId := some "a1",
        elapsedSeconds := 7, isRecording := false } := by
  have h1 := c9_session_reset envBase 37 (-122) "file:///tmp/clip.mp4"
  have h2 := c9_session_reset { envBase with uploadOk := false }
    37 (-122) "file:///tmp/clip.mp4"
  exact ⟨h1.2.2.1 rfl rfl rfl rfl rfl, h2.2.2.2 rfl rfl rfl rfl rfl⟩

/-- Every event of a sos.tsx run satisfies the frame condition. -/
theorem sosRun_frame (env : Env) : ∀ e ∈ (sosRun env).2, eventFrameOk e := by
  obtain ⟨loc, iok, nid, pok, cam, ruri, uok, now, uid, ticks⟩ := env
  rcases loc with _ | ⟨la, ln⟩ <;> cases iok <;> cases pok <;> cases cam <;>
    rcases ruri with _ | uri <;> cases uok <;>
    simp [sosRun, activateSOS, deactivateSOS, uploadEvidence, timerTicks,
      sosDoneTimeout, uploadSuccessTimeout, initialSess, eventFrameOk,
      patchFrameOk]

/-- Every event of an index.tsx run satisfies the frame condition. -/
theorem dashRun_frame (env : Env) : ∀ e ∈ (dashRun env).2, eventFrameOk e := by
  obtain ⟨loc, iok, nid, pok, cam, ruri, uok, now, uid, ticks⟩ := env
  rcases loc with _ | ⟨la, ln⟩ <;> cases iok <;> cases cam <;>
    rcases ruri with _ | uri <;> cases uok <;>
    simp [dashRun, startSOS, stopSOS, dashUploadEvidence, initialDash,
      eventFrameOk, patchFrameOk]

/-- Every event of a part_003 run satisfies the frame condition. -/
theorem part003Run_frame (env : Env) : ∀ e ∈ (part003Run env).2, eventFrameOk e := by
  obtain ⟨loc, iok, nid, pok, cam, ruri, uok, now, uid, ticks⟩ := env
  rcases loc with _ | ⟨la, ln⟩ <;> cases iok <;> cases cam <;>
    rcases ruri with _ | uri <;> cases uok <;>
    simp [part003Run, startSOS, stopSOS, part003UploadEvidence, initialDash,
      eventFrameOk, patchFrameOk]

/-- Every event of a part_002 run satisfies the frame condition. -/
theorem pivotRun_frame (env : Env) : ∀ e ∈ (pivotRun env).2, eventFrameOk e := by
  obtain ⟨loc, iok, nid, pok, cam, ruri, uok, now, uid, ticks⟩ := env
  rcases loc with _ | ⟨la, ln⟩ <;> cases iok <;> cases cam <;>
    rcases ruri with _ | uri <;> cases uok <;>
    simp [pivotRun, processAndUpload, initialPivot, eventFrameOk, patchFrameOk]

/-- C8: every update any of the four controllers ever issues carries
    neither coordinates nor a reporter reference in its patch — only
    evidencePath and status — so applying it leaves the location fields
    and the reporter of every row unchanged; the coordinates are written
    exactly once, at insert time. -/
theorem c8_updates_touch_only_evidence_and_status (env : Env) (e : Event)
    (id : String) (p : AlertPatch)
    (hmem : e ∈ (sosRun env).2 ∨ e ∈ (dashRun env).2 ∨
            e ∈ (part003Run env).2 ∨ e ∈ (pivotRun env).2)
    (hupd : e = Event.update id p) :
    p.lat = none ∧ p.lng = none ∧ p.user_id = none ∧
    ∀ row : AlertRow, (applyPatch row p).lat = row.lat ∧
      (applyPatch row p).lng = row.lng ∧
      (applyPatch row p).user_id = row.user_id := by
  have hframe : eventFrameOk e := by
    rcases hmem with h | h | h | h
    · exact sosRun_frame env e h
    · exact dashRun_frame env e h
    · exact part003Run_frame env e h
    · exact pivotRun_frame env e h
  subst hupd
  obtain ⟨h1, h2, h3⟩ := hframe
  refine ⟨h1, h2, h3, ?_⟩
  intro row
  simp [applyPatch, h1, h2, h3]

/-- C8 witness: the resolving update of a successful sos.tsx run. -/
theorem c8_updates_touch_only_evidence_and_status_witness :
    ({ status := some "resolved", video_path := some "sos_a1_1000.mp4" }
       : AlertPatch).lat = none ∧
    (applyPatch { user_id := none, lat := some 37, lng := some (-122),
                  status := "active", video_path := none }
       { status := some "resolved", video_path := some "sos_a1_1000.mp4" }).lat =
      some 37 := by
  have h := c8_updates_touch_only_evidence_and_status envBase
    (Event.update "a1" { status := some "resolved",
                         video_path := some "sos_a1_1000.mp4" })
    "a1" { status := some "resolved", video_path := some "sos_a1_1000.mp4" }
    (Or.inl (by decide)) rfl
  exact ⟨h.1,
    (h.2.2.2 { user_id := none, lat := some 37, lng := some (-122),
               status := "active", video_path := none }).1.trans rfl⟩

end HX12
